import Mathlib

/-
Verification of the tk-gdn integration hooks.

This file gives a shallow embedding of the hook code of the repository
(src/hooks/tk-multi-publish2/basic/collector.py,
 src/hooks/tk-multi-publish2/basic/publish_rendering.py,
 src/hooks/tk-multi-snapshot/basic/scene_operation.py,
 src/startup.py)
and proves properties of the embedded definitions.

Modelling conventions:
- Python dictionaries keyed by strings become association lists with
  first-match lookup; an update prepends, so lookup sees the newest binding.
- Fallible Python code (raised exceptions) becomes Except String, carrying
  the message of the exception that would be raised.
- External collaborators (the sgtk template objects, the base publish
  plugin, the engine, the workspace bridge) are parameters: a template is a
  record of its three used operations, the filesystem walk is abstracted as
  the list of frame-sequence specs it yields, and so on.
- os.path.join is modelled as the posix join rule: an absolute second
  component resets the path, otherwise the components are joined with a
  single separator.
-/

set_option autoImplicit false

/-- A value stored in a template-fields dictionary: the sgtk field values
occurring in this repository are strings (entity names) and integers
(version numbers). -/
inductive FieldVal where
  | str : String → FieldVal
  | int : Int → FieldVal
deriving DecidableEq, Repr

/-- A template-fields dictionary, e.g. the result of Template.get_fields. -/
abbrev Fields := List (String × FieldVal)

/-- First-match lookup in an association list, the model of dict.get. -/
def dictGet {α : Type} (d : List (String × α)) (k : String) : Option α :=
  match d.find? (fun kv => kv.1 == k) with
  | some kv => some kv.2
  | none => none

/-- Binding update in an association list, the model of d[k] = v: the new
binding is prepended and shadows any older binding of the same key. -/
def dictSet {α : Type} (d : List (String × α)) (k : String) (v : α) :
    List (String × α) :=
  (k, v) :: d

/-- Model of a sgtk template object, restricted to the three operations the
hooks call: validate, get_fields (which can raise) and missing_keys. -/
structure Template where
  validate : String → Bool
  get_fields : String → Except String Fields
  missing_keys : Fields → List String

/-- Opaque payload standing for a sg_publish_data record returned by the
base publish plugin. -/
abbrev PublishData := Nat

/-- The publish-item properties bag, restricted to the keys this repository
reads or writes. A field holding none models an absent key. -/
structure ItemProps where
  renderpaths : Option (List String) := none
  work_template : Option Template := none
  published_renderings : Option (List (Option PublishData)) := none
  publish_type : Option String := none
  path : Option String := none
  publish_template : Option Template := none
  sg_publish_data : Option PublishData := none

/-- Model of re.sub applied with the bracket character class and an empty
replacement: every square bracket character is removed from the string. -/
def stripBrackets (s : String) : String :=
  String.mk (s.data.filter (fun c => !(c == '[' || c == ']')))

/-- Test whether the first character of a string is the path separator. -/
def headIsSlash (s : String) : Bool :=
  match s.data with
  | [] => false
  | c :: _ => c == '/'

/-- Test whether the last character of a string is the path separator. -/
def lastIsSlash (s : String) : Bool :=
  match s.data.getLast? with
  | some c => c == '/'
  | none => false

/-- Model of os.path.join on two components (posix rule): an absolute
second component replaces the path, otherwise the components are glued
with a single separator. -/
def pyJoin2 (a b : String) : String :=
  if headIsSlash b then b
  else if a = "" ∨ lastIsSlash a = true then a ++ b
  else a ++ "/" ++ b

/-- Model of str(x) for an optional field value: Python prints the None
object as the four letter word None. -/
def pyStrOfField : Option FieldVal → String
  | none => "None"
  | some (FieldVal.str s) => s
  | some (FieldVal.int n) => toString n

/-- Left pad a string with the zero character up to width three, the model
of the format spec used in collector.py line 252. -/
def zeroPad3 (s : String) : String :=
  if 3 ≤ s.length then s else String.mk (List.replicate (3 - s.length) '0') ++ s

/-- Model of format(v) under the width three zero fill format spec, for the
field values that can appear. -/
def formatPad3 : FieldVal → String
  | FieldVal.str s => zeroPad3 s
  | FieldVal.int n => zeroPad3 (toString n)

namespace GDNSceneCollector

/-- Display name synthesized for a matched render sequence,
collector.py line 252. The format string there is " %s - %s v%s" (note the
leading blank) applied to fields.get(entity_type), fields.get(name) and the
zero padded fields.get(version); formatting the version raises when the
version key is absent, because the None object rejects the fill format
spec. -/
def renderItemName (fields : Fields) (entity_type : String) :
    Except String String :=
  match dictGet fields "version" with
  | none => Except.error "TypeError: unsupported format string passed to NoneType.__format__"
  | some v =>
      Except.ok (" " ++ pyStrOfField (dictGet fields entity_type) ++ " - " ++
        pyStrOfField (dictGet fields "name") ++ " v" ++ formatPad3 v)

/-- Processing of one frame-sequence spec inside the walk of
collector.py collect_renders, lines 236-269. Returns ok none when the spec
is skipped, ok (some name) when a publish item with that display name is
created, and error when an exception propagates. The comparison of the
entity-type field (line 244) only emits a debug log: execution falls
through to the version comparison, so it is recorded here as an unused
binding. -/
def processSeqSpec (rct : Template) (entity_fields : Fields)
    (entity_type : String) (seq_spec : String) :
    Except String (Option String) :=
  if rct.validate seq_spec then
    match rct.get_fields seq_spec with
    | Except.error e => Except.error e
    | Except.ok fields =>
        let _entity_mismatch :=
          dictGet entity_fields entity_type ≠ dictGet fields entity_type
        if dictGet entity_fields "version" ≠ dictGet fields "version" then
          Except.ok none
        else
          match renderItemName fields entity_type with
          | Except.error e => Except.error e
          | Except.ok nm => Except.ok (some nm)
  else Except.ok none

/-- Folding processSeqSpec over all frame-sequence specs found by the
directory walk, collecting the display names of the created items. -/
def collectLoop (rct : Template) (entity_fields : Fields)
    (entity_type : String) : List String → Except String (List String)
  | [] => Except.ok []
  | spec :: rest =>
      match processSeqSpec rct entity_fields entity_type spec with
      | Except.error e => Except.error e
      | Except.ok none => collectLoop rct entity_fields entity_type rest
      | Except.ok (some nm) =>
          match collectLoop rct entity_fields entity_type rest with
          | Except.error e => Except.error e
          | Except.ok nms => Except.ok (nm :: nms)

/-- Model of collector.py collect_renders, lines 219-269. The statement
order of the source is kept: entity_fields is computed from the work
template (line 222, raising AttributeError when work_template is the None
object and propagating any get_fields failure) BEFORE the
missing-render-template early return of line 223. The os.walk plus
get_frame_sequences machinery is abstracted by the list seq_specs of all
sequence specs the walk yields. -/
def collect_renders (work_template : Option Template) (scene_path : String)
    (render_collector_template : Option Template) (entity_type : String)
    (seq_specs : List String) : Except String (List String) :=
  match work_template with
  | none => Except.error "AttributeError: NoneType object has no attribute get_fields"
  | some wt =>
      match wt.get_fields scene_path with
      | Except.error e => Except.error e
      | Except.ok entity_fields =>
          match render_collector_template with
          | none => Except.ok []
          | some rct => collectLoop rct entity_fields entity_type seq_specs

end GDNSceneCollector

namespace GDNRenderPublishPlugin

/-- First acceptance level of publish_rendering.py line 29: the class
attributes REJECTED and FULLY_ACCEPTED are bound to range(2), i.e. the
integers 0 and 1. -/
def REJECTED : Nat := 0

/-- Second acceptance level of publish_rendering.py line 29. -/
def FULLY_ACCEPTED : Nat := 1

/-- The temporary path assignment at the top of is_acceptable
(publish_rendering.py lines 216-218): the loop over render_paths breaks
after its first iteration, so only the first render path, with brackets
stripped, is written into the path property. -/
def setTempPath (render_paths : List String) (item : ItemProps) : ItemProps :=
  match render_paths with
  | [] => item
  | each_path :: _ => { item with path := some (stripBrackets each_path) }

/-- The two template checks of publish_rendering.py lines 221-237, in
source order: a missing work template rejects, then an empty (normalized)
project path rejects, otherwise the item is fully accepted. -/
def gateLevel (work_template : Option Template) (project_path : String) : Nat :=
  if work_template.isNone then REJECTED
  else if project_path = "" then REJECTED
  else FULLY_ACCEPTED

/-- Model of the private helper is_acceptable of publish_rendering.py
lines 197-237. The renderpaths property is read with dict.get (None when
absent) and immediately iterated, so an item without that property raises
a TypeError before any other check. The project_path argument stands for
the already normalized engine project path. -/
def is_acceptable (item : ItemProps) (project_path : String) :
    Except String (Nat × ItemProps) :=
  match item.renderpaths with
  | none => Except.error "TypeError: NoneType object is not iterable"
  | some render_paths =>
      let item1 := setTempPath render_paths item
      Except.ok (gateLevel item1.work_template project_path, item1)

/-- Model of accept, publish_rendering.py lines 100-128: the dictionary
with accepted mapped to False exactly when the gate answers REJECTED, and
with accepted and checked mapped to True otherwise. -/
def accept (item : ItemProps) (project_path : String) :
    Except String (List (String × Bool)) :=
  match is_acceptable item project_path with
  | Except.error e => Except.error e
  | Except.ok (a, _) =>
      if a = REJECTED then Except.ok [("accepted", false)]
      else Except.ok [("accepted", true), ("checked", true)]

/-- Model of validate, publish_rendering.py lines 130-147: False whenever
the gate is not FULLY_ACCEPTED, otherwise the inherited base validation
(an external collaborator, passed in as base_validate). -/
def validate (base_validate : Bool) (item : ItemProps) (project_path : String) :
    Except String Bool :=
  match is_acceptable item project_path with
  | Except.error e => Except.error e
  | Except.ok (a, _) =>
      if a ≠ FULLY_ACCEPTED then Except.ok false
      else Except.ok base_validate

/-- Per-iteration property updates at the top of the publish loop,
publish_rendering.py lines 173-176: the bracket-stripped path is stored,
and the resolved publish template is stored when it is not None. -/
def setPathAndTemplate (publish_template : Option Template) (path : String)
    (item : ItemProps) : ItemProps :=
  match publish_template with
  | some t => { item with path := some path, publish_template := some t }
  | none => { item with path := some path }

/-- Outcome of the publish loop: the final properties bag, the elements
appended to the published_renderings list object, the render paths for
which the inherited base publish was invoked, and the exception message
when one was raised. -/
structure LoopOutcome where
  props : ItemProps
  appended : List (Option PublishData)
  baseCalls : List String
  error : Option String

/-- Model of the loop body of publish, publish_rendering.py lines 172-195.
Reading item.properties with square brackets raises KeyError when the
work_template key is absent; the subsequent falsiness test on the template
object never fires for a present template (objects are truthy), so it is
not modelled as a branch. Calling missing_keys on a None publish template
raises AttributeError. A nonempty missing-keys list raises before the
inherited base publish is reached; on success the base publish stores
base_publish_data into sg_publish_data and that value is appended to the
published_renderings list object. -/
def publishLoop (publish_template : Option Template) (bd : PublishData) :
    List String → ItemProps → List (Option PublishData) → List String →
    LoopOutcome
  | [], item, appended, calls => ⟨item, appended, calls, none⟩
  | each_path :: rest, item, appended, calls =>
      let item1 := setPathAndTemplate publish_template (stripBrackets each_path) item
      match item1.work_template with
      | none => ⟨item1, appended, calls, some "KeyError: work_template"⟩
      | some wt =>
          match wt.get_fields (stripBrackets each_path) with
          | Except.error e => ⟨item1, appended, calls, some e⟩
          | Except.ok work_fields =>
              match publish_template with
              | none =>
                  ⟨item1, appended, calls,
                    some "AttributeError: NoneType object has no attribute missing_keys"⟩
              | some pt =>
                  if pt.missing_keys work_fields ≠ [] then
                    ⟨item1, appended, calls,
                      some "Work file missing keys required for the publish template"⟩
                  else
                    publishLoop publish_template bd rest
                      { item1 with sg_publish_data := some bd }
                      (appended ++ [some bd]) (calls ++ [each_path])

/-- Outcome of a whole publish call. -/
structure PublishOutcome where
  props : ItemProps
  baseCalls : List String
  error : Option String

/-- Model of publish, publish_rendering.py lines 149-195. The publish_type
property is set first; a missing Publish Template settings entry raises
before anything else happens; the published_renderings list object is read
once before the loop, so appends through that alias land in the property
exactly when the key was present. -/
def publish (get_template_by_name : String → Option Template)
    (bd : PublishData) (settings : List (String × String))
    (item : ItemProps) : PublishOutcome :=
  let item1 : ItemProps := { item with publish_type := some "Rendered Image" }
  let render_paths := item1.renderpaths.getD []
  match dictGet settings "Publish Template" with
  | none =>
      { props := item1, baseCalls := [],
        error := some "A publish template must exist for this plugin to work" }
  | some tmpl_name =>
      let publish_template := get_template_by_name tmpl_name
      let out := publishLoop publish_template bd render_paths item1 [] []
      let final : ItemProps :=
        match item1.published_renderings with
        | some l => { out.props with published_renderings := some (l ++ out.appended) }
        | none => out.props
      { props := final, baseCalls := out.baseCalls, error := out.error }

end GDNRenderPublishPlugin

/-- Model of the Python whitespace character class (the complement of the
regex shorthand for non-whitespace) over the ASCII range. -/
def pyIsSpace (c : Char) : Bool :=
  c == ' ' || c == '\t' || c == '\n' || c == '\r' || c == '\x0b' || c == '\x0c'

/-- Model of the regex dot without the DOTALL flag: any character except a
newline. -/
def reDotC (c : Char) : Bool := c != '\n'

/-- Matcher for the tail of the version regexes of collector.py lines 171
and 199: a run of at least (the given count of) characters of the class T,
stopped at a position where the dollar anchor holds. Under the MULTILINE
flag used there, the dollar anchor holds at the end of the string and
immediately before a newline. -/
def tailRepeat (T : Char → Bool) : Nat → List Char → Bool
  | 0, [] => true
  | 0, c :: rest => c == '\n' || (T c && tailRepeat T 0 rest)
  | _ + 1, [] => false
  | n + 1, c :: rest => T c && tailRepeat T n rest

/-- Matcher for the fixed middle of the version regexes: a literal dot,
the letter v, exactly three decimal digits, a literal dot, then a tail of
at least three characters of the class T up to a dollar position. Returns
the digit group (group 2 of the regex) on success. -/
def vMatch (T : Char → Bool) (cs : List Char) : Option (List Char) :=
  match cs with
  | c0 :: c1 :: d1 :: d2 :: d3 :: c5 :: rest =>
      if c0 = '.' ∧ c1 = 'v' ∧ d1.isDigit = true ∧ d2.isDigit = true ∧
          d3.isDigit = true ∧ c5 = '.' ∧ tailRepeat T 3 rest = true
      then some [d1, d2, d3] else none
  | _ => none

/-- One candidate split for the leading greedy dot-star group: the first i
characters form group 1 (each must match the regex dot), and the fixed
part of the pattern must match from position i. -/
def tryMatchAt (T : Char → Bool) (s : List Char) (i : Nat) : Option (List Char) :=
  if (s.take i).all reDotC then vMatch T (s.drop i) else none

/-- Backtracking over the split position, longest group 1 first, exactly as
the greedy dot-star of the regex engine does; the digit group of the first
successful split is the group the engine reports. -/
def reMatchFrom (T : Char → Bool) (s : List Char) : Nat → Option (List Char)
  | 0 => tryMatchAt T s 0
  | i + 1 =>
      match tryMatchAt T s (i + 1) with
      | some g => some g
      | none => reMatchFrom T s i

/-- Group 2 of an anchored match of the version regex with tail class T
against s, or none when the regex does not match. -/
def reVersionGroup (T : Char → Bool) (s : List Char) : Option (List Char) :=
  reMatchFrom T s s.length

/-- Version token of the current scene filename, collector.py line 171:
the scene regex requires the extension to consist of non-whitespace
characters. -/
def sceneVersionOf (scene_file : String) : Option (List Char) :=
  reVersionGroup (fun c => !(pyIsSpace c)) scene_file.data

/-- Version token of a movie path, collector.py line 199: the movie regex
accepts any non-newline characters in the extension. -/
def movieVersionOf (movie_path : String) : Option (List Char) :=
  reVersionGroup reDotC movie_path.data

namespace GDNSceneCollector

/-- Decision of the collect_movies loop body for one file of the movies
directory, collector.py lines 183-213: files of another item type are
skipped, then an unparsable scene filename skips everything, then the
movie path (the movies directory joined with the filename) must match the
movie regex, with its version group equal to the scene version token. All
skips only log; no branch raises. -/
def movieCollected (item_type scene_file movies_dir filename : String) : Bool :=
  if item_type ≠ "file.video" then false
  else
    match sceneVersionOf scene_file with
    | none => false
    | some scene_version =>
        match movieVersionOf (pyJoin2 movies_dir filename) with
        | none => false
        | some mv => mv == scene_version

end GDNSceneCollector

namespace GDNLauncher

/-- Launch information record built by prepare_launch, startup.py line 85:
executable path, argument string and subprocess environment. -/
structure LaunchInformation where
  path : String
  args : String
  environment : List (String × String)

/-- Model of dict.update: every binding of the second dictionary is written
into the first. -/
def pyUpdate (d other : List (String × String)) : List (String × String) :=
  other.foldl (fun acc kv => dictSet acc kv.1 kv.2) d

/-- Model of compute_environment, startup.py lines 136-174. A missing
framework location raises the engine configuration error; otherwise the
environment holds the interpreter path, the framework location, the fixed
engine name and the augmented PYTHONPATH value (the external
append_path_to_env_var result is taken as the pythonpath_env parameter). -/
def compute_environment (framework_location : Option String)
    (sys_executable pythonpath_env : String) :
    Except String (List (String × String)) :=
  match framework_location with
  | none =>
      Except.error "The tk-framework-gdn could not be found in the current environment."
  | some loc =>
      Except.ok (dictSet (dictSet (dictSet (dictSet []
        "SHOTGUN_GDN_PYTHON" sys_executable)
        "SHOTGUN_GDN_FRAMEWORK_LOCATION" loc)
        "SHOTGUN_ENGINE" "tk-gdn")
        "PYTHONPATH" pythonpath_env)

/-- Model of prepare_launch, startup.py lines 63-85: the computed
environment is updated with the standard plugin environment (an external
collaborator, passed in as std_env), and the file-to-open variable is set
only when the file_to_open argument is truthy, i.e. present and non-empty
(the source tests it with a plain Python truthiness check). -/
def prepare_launch (framework_location : Option String)
    (sys_executable pythonpath_env : String)
    (std_env : List (String × String)) (exec_path args : String)
    (file_to_open : Option String) : Except String LaunchInformation :=
  match compute_environment framework_location sys_executable pythonpath_env with
  | Except.error e => Except.error e
  | Except.ok required_env =>
      let env1 := pyUpdate required_env std_env
      let env2 :=
        match file_to_open with
        | none => env1
        | some f => if f = "" then env1 else dictSet env1 "SGTK_FILE_TO_OPEN" f
      Except.ok { path := exec_path, args := args, environment := env2 }

end GDNLauncher

namespace SceneOperation

/-- The workspace bridge values the scene-operation hook reads. -/
structure WorkspaceState where
  current_scene_path : String
  current_scenefile : String
  working_directory : String

/-- Observable outcome of one execute call: its return value and the open
and save_as calls issued to the workspace bridge. -/
structure SceneOpOutcome where
  result : Option String
  openCalls : List String
  saveAsCalls : List String

/-- Model of SceneOperation.execute, scene_operation.py lines 19-55. The
current_path verb returns the scene path or raises (the source names
TankError without importing it, so the raise itself is a NameError); the
open verb opens the given file and returns None; the save verb saves into
the snapshot subdirectory of the working directory under the current
filename when that filename is non-empty, performs no save otherwise, and
returns None; any other verb falls through and returns None. -/
def execute (ws : WorkspaceState) (operation file_path : String) :
    Except String SceneOpOutcome :=
  if operation = "current_path" then
    if ws.current_scene_path ≠ "" then
      Except.ok { result := some ws.current_scene_path, openCalls := [], saveAsCalls := [] }
    else Except.error "NameError: name TankError is not defined"
  else if operation = "open" then
    Except.ok { result := none, openCalls := [file_path], saveAsCalls := [] }
  else if operation = "save" then
    if ws.current_scenefile ≠ "" then
      Except.ok
        { result := none
          openCalls := []
          saveAsCalls :=
            [pyJoin2 (pyJoin2 ws.working_directory "snapshot") ws.current_scenefile] }
    else Except.ok { result := none, openCalls := [], saveAsCalls := [] }
  else Except.ok { result := none, openCalls := [], saveAsCalls := [] }

end SceneOperation

/-- Publish template used in the C4 witness: it always reports a missing
version key. -/
def c4PublishTemplate : Template :=
  { validate := fun _ => true
    get_fields := fun _ => Except.ok []
    missing_keys := fun _ => ["version"] }

/-- Work template used in witnesses: every operation succeeds trivially. -/
def plainTemplate : Template :=
  { validate := fun _ => true
    get_fields := fun _ => Except.ok []
    missing_keys := fun _ => [] }

/-- Item used in the C4 witness: one bracketed render path and a work
template. -/
def c4Item : ItemProps :=
  { renderpaths := some ["seq.[0001].exr"]
    work_template := some plainTemplate }

/-- Settings used in the C4 witness. -/
def c4Settings : List (String × String) :=
  [("Publish Template", "gdn_render_publish")]

/-- Item with an empty renderpaths list and no work template, used in the
C3 witness. -/
def c3Item : ItemProps := { renderpaths := some [] }

/-- Item with every property absent, used in the C9 witness. -/
def emptyItem : ItemProps := {}

/-- Fields extracted from a render sequence in the C1 counterexample: the
entity-type field differs from the scene, the version field agrees. -/
def cexSeqFields : Fields :=
  [("Shot", FieldVal.str "SH020"), ("name", FieldVal.str "comp"),
   ("version", FieldVal.int 1)]

/-- Fields of the current scene in the C1 counterexample. -/
def cexEntityFields : Fields :=
  [("Shot", FieldVal.str "SH010"), ("version", FieldVal.int 1)]

/-- Render-collector template for the C1 counterexample: it validates every
spec and resolves every spec to cexSeqFields. -/
def cexTemplate : Template :=
  { validate := fun _ => true
    get_fields := fun _ => Except.ok cexSeqFields
    missing_keys := fun _ => [] }

/-- Fields used in the C7 example of the claim. -/
def c7Fields : Fields :=
  [("Shot", FieldVal.str "SH010"), ("name", FieldVal.str "comp"),
   ("version", FieldVal.int 7)]

/-- Claim C1 counterexample: a frame-sequence spec that validates against
the render-collector template and whose entity-type field (Shot) differs
from the scene is still turned into a publish item, because the version
fields agree; the entity-type mismatch of collector.py line 244 only logs
and does not exclude the sequence. This refutes the claim that a mismatch
on either field excludes the sequence. -/
theorem c1_entity_mismatch_still_collected :
    cexTemplate.validate "seq" = true ∧
    dictGet cexEntityFields "Shot" ≠ dictGet cexSeqFields "Shot" ∧
    GDNSceneCollector.processSeqSpec cexTemplate cexEntityFields "Shot" "seq" =
      Except.ok (some " SH020 - comp v001") := by
  refine ⟨rfl, by decide, ?_⟩
  rfl

/-- Claim C1 (amended): a frame-sequence spec that validates against the
render-collector template is turned into a child publish item if and only
if the version field extracted from the spec equals the version field of
the current scene; the entity-type comparison only logs and never excludes
the sequence. -/
theorem c1_version_field_alone_decides (rct : Template) (ef : Fields)
    (et spec : String) (f : Fields) (nm : String)
    (hv : rct.validate spec = true)
    (hf : rct.get_fields spec = Except.ok f)
    (hn : GDNSceneCollector.renderItemName f et = Except.ok nm) :
    (GDNSceneCollector.processSeqSpec rct ef et spec = Except.ok (some nm) ↔
      dictGet ef "version" = dictGet f "version") ∧
    (dictGet ef "version" ≠ dictGet f "version" →
      GDNSceneCollector.processSeqSpec rct ef et spec = Except.ok none) := by
  unfold GDNSceneCollector.processSeqSpec
  rw [hv, hf]
  simp only [if_true]
  by_cases h : dictGet ef "version" = dictGet f "version"
  · rw [if_neg (by simpa using h), hn]
    simp [h]
  · rw [if_pos h]
    simp [h]

/-- Claim C1 witness: the amended theorem applied to the counterexample
template with matching version fields. -/
theorem c1_version_field_alone_decides_witness :
    (GDNSceneCollector.processSeqSpec cexTemplate cexEntityFields "Shot" "seq" =
        Except.ok (some " SH020 - comp v001") ↔
      dictGet cexEntityFields "version" = dictGet cexSeqFields "version") ∧
    (dictGet cexEntityFields "version" ≠ dictGet cexSeqFields "version" →
      GDNSceneCollector.processSeqSpec cexTemplate cexEntityFields "Shot" "seq" =
        Except.ok none) :=
  c1_version_field_alone_decides cexTemplate cexEntityFields "Shot" "seq"
    cexSeqFields " SH020 - comp v001" rfl rfl rfl

/-- Claim C6 counterexample: a call of collect_renders in which the render
sequence template resolves to no template can still raise, because
entity_fields is computed from the work template (collector.py line 222)
before the missing-template check of line 223; here the work template is
the None object, so an AttributeError is raised. This refutes the claim
that no exception is raised on every such call. -/
theorem c6_missing_template_can_still_raise :
    GDNSceneCollector.collect_renders none "scene.gdn" none "Shot" [] =
      Except.error "AttributeError: NoneType object has no attribute get_fields" := rfl

/-- Claim C6 (amended): when the render sequence template setting resolves
to no template, and extracting the work-template fields of the current
scene path succeeds (work template present and get_fields returns fields),
collect_renders returns with zero render publish items created and no
exception. -/
theorem c6_missing_template_collects_nothing (wt : Template)
    (scene_path et : String) (seq_specs : List String) (ef : Fields)
    (h : wt.get_fields scene_path = Except.ok ef) :
    GDNSceneCollector.collect_renders (some wt) scene_path none et seq_specs =
      Except.ok [] := by
  simp [GDNSceneCollector.collect_renders, h]

/-- Claim C6 witness: the amended theorem at a concrete template whose
get_fields always succeeds. -/
theorem c6_missing_template_collects_nothing_witness :
    GDNSceneCollector.collect_renders (some cexTemplate) "scene.gdn" none "Shot"
      ["a", "b"] = Except.ok [] :=
  c6_missing_template_collects_nothing cexTemplate "scene.gdn" "Shot"
    ["a", "b"] cexSeqFields rfl

/-- Claim C7 counterexample: the display name synthesized for the example
fields of the claim (shot SH010, name comp, version 7) is the string
beginning with a blank, because the format string of collector.py line 252
starts with a blank; it therefore differs from the name the claim states. -/
theorem c7_display_name_has_leading_blank :
    GDNSceneCollector.renderItemName c7Fields "Shot" =
      Except.ok " SH010 - comp v007" ∧
    (" SH010 - comp v007" : String) ≠ "SH010 - comp v007" := by
  refine ⟨?_, by decide⟩
  rfl

/-- Claim C7 (amended): the display name synthesized for a matched render
sequence zero-pads the version field to width 3 and has the exact form
blank entity blank dash blank name blank v version (a single leading blank
before the entity); in particular the padded version string has length at
least three. -/
theorem c7_display_name_format (fields : Fields) (et e n : String) (v : Int)
    (he : dictGet fields et = some (FieldVal.str e))
    (hn : dictGet fields "name" = some (FieldVal.str n))
    (hv : dictGet fields "version" = some (FieldVal.int v)) :
    GDNSceneCollector.renderItemName fields et =
      Except.ok (" " ++ e ++ " - " ++ n ++ " v" ++ zeroPad3 (toString v)) ∧
    3 ≤ (zeroPad3 (toString v)).length := by
  constructor
  · unfold GDNSceneCollector.renderItemName
    rw [hv, he, hn]
    rfl
  · unfold zeroPad3
    split
    · assumption
    · rename_i hlt
      generalize toString v = s at hlt ⊢
      obtain ⟨d⟩ := s
      show 3 ≤ (String.mk (List.replicate (3 - (String.mk d).length) '0' ++ d)).length
      simp only [String.mk_length, List.length_append, List.length_replicate]
      simp only [String.mk_length] at hlt
      omega

/-- Claim C7 witness: the amended format theorem at the example fields of
the claim. -/
theorem c7_display_name_format_witness :
    GDNSceneCollector.renderItemName c7Fields "Shot" =
      Except.ok (" " ++ "SH010" ++ " - " ++ "comp" ++ " v" ++
        zeroPad3 (toString (7 : Int))) ∧
    3 ≤ (zeroPad3 (toString (7 : Int))).length :=
  c7_display_name_format c7Fields "Shot" "SH010" "comp" 7 rfl rfl rfl

@[simp]
theorem setTempPath_work_template (rps : List String) (item : ItemProps) :
    (GDNRenderPublishPlugin.setTempPath rps item).work_template =
      item.work_template := by
  cases rps <;> rfl

@[simp]
theorem setPathAndTemplate_work_template (pt : Option Template) (path : String)
    (item : ItemProps) :
    (GDNRenderPublishPlugin.setPathAndTemplate pt path item).work_template =
      item.work_template := by
  cases pt <;> rfl

/-- Claim C2: when the settings contain no Publish Template entry, publish
raises, invokes the base publish for no path, and leaves the
published_renderings accumulator exactly as it was before the call. -/
theorem c2_missing_publish_template_raises (gt : String → Option Template)
    (bd : PublishData) (settings : List (String × String)) (item : ItemProps)
    (h : dictGet settings "Publish Template" = none) :
    (GDNRenderPublishPlugin.publish gt bd settings item).error.isSome = true ∧
    (GDNRenderPublishPlugin.publish gt bd settings item).props.published_renderings =
      item.published_renderings ∧
    (GDNRenderPublishPlugin.publish gt bd settings item).baseCalls = [] := by
  simp [GDNRenderPublishPlugin.publish, h]

/-- Claim C2 witness: the theorem at an item with no settings at all. -/
theorem c2_missing_publish_template_raises_witness :
    (GDNRenderPublishPlugin.publish (fun _ => none) 0 [] emptyItem).error.isSome = true ∧
    (GDNRenderPublishPlugin.publish (fun _ => none) 0 [] emptyItem).props.published_renderings =
      emptyItem.published_renderings ∧
    (GDNRenderPublishPlugin.publish (fun _ => none) 0 [] emptyItem).baseCalls = [] :=
  c2_missing_publish_template_raises (fun _ => none) 0 [] emptyItem rfl

/-- Claim C3: for an item carrying a renderpaths property the gate answers
without an exception and is two valued; it answers REJECTED exactly when
the work_template property is absent or the normalized project path is
empty; accept returns the accepted False dictionary exactly in the
REJECTED case and the accepted True checked True dictionary in the
FULLY_ACCEPTED case; validate returns False whenever the gate is not
FULLY_ACCEPTED. -/
theorem c3_two_valued_gate (item : ItemProps) (project_path : String)
    (rps : List String) (h : item.renderpaths = some rps) :
    ∃ a item2,
      GDNRenderPublishPlugin.is_acceptable item project_path = Except.ok (a, item2) ∧
      (a = GDNRenderPublishPlugin.REJECTED ∨ a = GDNRenderPublishPlugin.FULLY_ACCEPTED) ∧
      (a = GDNRenderPublishPlugin.REJECTED ↔
        (item.work_template = none ∨ project_path = "")) ∧
      (GDNRenderPublishPlugin.accept item project_path =
          Except.ok [("accepted", false)] ↔ a = GDNRenderPublishPlugin.REJECTED) ∧
      (a = GDNRenderPublishPlugin.FULLY_ACCEPTED →
        GDNRenderPublishPlugin.accept item project_path =
          Except.ok [("accepted", true), ("checked", true)]) ∧
      (∀ bv, a ≠ GDNRenderPublishPlugin.FULLY_ACCEPTED →
        GDNRenderPublishPlugin.validate bv item project_path = Except.ok false) := by
  have hacc : GDNRenderPublishPlugin.is_acceptable item project_path =
      Except.ok (GDNRenderPublishPlugin.gateLevel item.work_template project_path,
        GDNRenderPublishPlugin.setTempPath rps item) := by
    simp [GDNRenderPublishPlugin.is_acceptable, h]
  refine ⟨_, _, hacc, ?_, ?_, ?_, ?_, ?_⟩
  · by_cases hw : item.work_template.isNone <;> by_cases hpp : project_path = "" <;>
      simp [GDNRenderPublishPlugin.gateLevel, hw, hpp]
  · rcases hw : item.work_template with _ | wt <;> by_cases hpp : project_path = "" <;>
      simp [GDNRenderPublishPlugin.gateLevel, GDNRenderPublishPlugin.REJECTED,
        GDNRenderPublishPlugin.FULLY_ACCEPTED, hw, hpp]
  · simp only [GDNRenderPublishPlugin.accept, hacc]
    by_cases ha : GDNRenderPublishPlugin.gateLevel item.work_template project_path =
        GDNRenderPublishPlugin.REJECTED
    · simp [ha]
    · simp [ha]
  · intro haF
    simp only [GDNRenderPublishPlugin.accept, hacc]
    rw [if_neg]
    rw [haF]
    simp [GDNRenderPublishPlugin.FULLY_ACCEPTED, GDNRenderPublishPlugin.REJECTED]
  · intro bv hne
    simp only [GDNRenderPublishPlugin.validate, hacc]
    rw [if_pos hne]

/-- Claim C3 witness: the gate theorem at an item with an empty renderpaths
list, no work template and an unsaved project. -/
theorem c3_two_valued_gate_witness :
    ∃ a item2,
      GDNRenderPublishPlugin.is_acceptable c3Item "" = Except.ok (a, item2) ∧
      (a = GDNRenderPublishPlugin.REJECTED ∨ a = GDNRenderPublishPlugin.FULLY_ACCEPTED) ∧
      (a = GDNRenderPublishPlugin.REJECTED ↔
        (c3Item.work_template = none ∨ ("" : String) = "")) ∧
      (GDNRenderPublishPlugin.accept c3Item "" =
          Except.ok [("accepted", false)] ↔ a = GDNRenderPublishPlugin.REJECTED) ∧
      (a = GDNRenderPublishPlugin.FULLY_ACCEPTED →
        GDNRenderPublishPlugin.accept c3Item "" =
          Except.ok [("accepted", true), ("checked", true)]) ∧
      (∀ bv, a ≠ GDNRenderPublishPlugin.FULLY_ACCEPTED →
        GDNRenderPublishPlugin.validate bv c3Item "" = Except.ok false) :=
  c3_two_valued_gate c3Item "" [] rfl

/-- Helper for claim C4: once some render path in the list has fields that
the publish template reports missing keys for, the publish loop ends with
a raised exception and never invokes the base publish for that path. -/
theorem publishLoop_missing_keys (pt : Template) (bd : PublishData)
    (wt : Template) (p : String) (f : Fields)
    (hf : wt.get_fields (stripBrackets p) = Except.ok f)
    (hmk : pt.missing_keys f ≠ []) :
    ∀ (rps : List String) (item : ItemProps)
      (appended : List (Option PublishData)) (calls : List String),
      item.work_template = some wt → p ∈ rps → p ∉ calls →
      (GDNRenderPublishPlugin.publishLoop (some pt) bd rps item appended calls).error.isSome
          = true ∧
      p ∉ (GDNRenderPublishPlugin.publishLoop (some pt) bd rps item appended calls).baseCalls := by
  intro rps
  induction rps with
  | nil => intro item appended calls _ hp _; exact absurd hp (List.not_mem_nil p)
  | cons q rest ih =>
    intro item appended calls hwt hp hcalls
    simp only [GDNRenderPublishPlugin.publishLoop, setPathAndTemplate_work_template, hwt]
    cases hq : wt.get_fields (stripBrackets q) with
    | error e =>
      simp only [hq]
      exact ⟨rfl, hcalls⟩
    | ok wf =>
      simp only [hq]
      by_cases hm : pt.missing_keys wf ≠ []
      · rw [if_pos hm]
        exact ⟨rfl, hcalls⟩
      · rw [if_neg hm]
        push_neg at hm
        have hpq : p ≠ q := by
          intro he
          subst he
          rw [hf] at hq
          injection hq with hfw
          exact hmk (hfw ▸ hm)
        have hprest : p ∈ rest := by
          rcases List.mem_cons.mp hp with h1 | h1
          · exact absurd h1 hpq
          · exact h1
        apply ih
        · simp [hwt]
        · exact hprest
        · simp [hpq]
          exact hcalls

/-- Claim C4: under a configured publish template and a present work
template, a render path whose work-file fields (extracted from the bracket
stripped path) leave the publish template with missing keys makes publish
raise, and the inherited base publish is never invoked for that path. -/
theorem c4_missing_keys_abort (gt : String → Option Template)
    (bd : PublishData) (settings : List (String × String)) (item : ItemProps)
    (tmpl_name : String) (pt wt : Template) (rps : List String) (p : String)
    (f : Fields)
    (hset : dictGet settings "Publish Template" = some tmpl_name)
    (hgt : gt tmpl_name = some pt)
    (hrp : item.renderpaths = some rps)
    (hwt : item.work_template = some wt)
    (hp : p ∈ rps)
    (hf : wt.get_fields (stripBrackets p) = Except.ok f)
    (hmk : pt.missing_keys f ≠ []) :
    (GDNRenderPublishPlugin.publish gt bd settings item).error.isSome = true ∧
    p ∉ (GDNRenderPublishPlugin.publish gt bd settings item).baseCalls := by
  have hloop := publishLoop_missing_keys pt bd wt p f hf hmk rps
    { item with publish_type := some "Rendered Image" } [] []
    (by simpa using hwt) hp (List.not_mem_nil p)
  simp only [GDNRenderPublishPlugin.publish, hset, hgt, hrp, Option.getD_some]
  rw [hrp] at hloop
  exact hloop

/-- Claim C4 witness: the theorem at an item with one bracketed render
path and a publish template that always reports a missing version key. -/
theorem c4_missing_keys_abort_witness :
    (GDNRenderPublishPlugin.publish (fun _ => some c4PublishTemplate) 0 c4Settings c4Item).error.isSome
        = true ∧
    "seq.[0001].exr" ∉
      (GDNRenderPublishPlugin.publish (fun _ => some c4PublishTemplate) 0 c4Settings c4Item).baseCalls :=
  c4_missing_keys_abort (fun _ => some c4PublishTemplate) 0 c4Settings c4Item
    "gdn_render_publish" c4PublishTemplate plainTemplate ["seq.[0001].exr"]
    "seq.[0001].exr" [] rfl rfl rfl rfl (by simp) rfl (by decide)

/-- Claim C9: an item without a renderpaths property makes is_acceptable,
accept and validate raise (the gate iterates the None renderpaths value
before every other check), so no rejection value is ever returned for such
an item, and any non-exceptional gate answer, in particular the
missing-template rejection, requires a present renderpaths property. -/
theorem c9_no_renderpaths_is_exception_not_rejection (item : ItemProps)
    (project_path : String) (h : item.renderpaths = none) :
    GDNRenderPublishPlugin.is_acceptable item project_path =
      Except.error "TypeError: NoneType object is not iterable" ∧
    GDNRenderPublishPlugin.accept item project_path =
      Except.error "TypeError: NoneType object is not iterable" ∧
    (∀ bv, GDNRenderPublishPlugin.validate bv item project_path =
      Except.error "TypeError: NoneType object is not iterable") ∧
    GDNRenderPublishPlugin.accept item project_path ≠
      Except.ok [("accepted", false)] ∧
    (∀ bv, GDNRenderPublishPlugin.validate bv item project_path ≠ Except.ok false) ∧
    (∀ (item2 : ItemProps) (pp : String) (r : Nat × ItemProps),
      GDNRenderPublishPlugin.is_acceptable item2 pp = Except.ok r →
        item2.renderpaths ≠ none) := by
  have h1 : GDNRenderPublishPlugin.is_acceptable item project_path =
      Except.error "TypeError: NoneType object is not iterable" := by
    simp [GDNRenderPublishPlugin.is_acceptable, h]
  refine ⟨h1, ?_, ?_, ?_, ?_, ?_⟩
  · simp [GDNRenderPublishPlugin.accept, h1]
  · intro bv; simp [GDNRenderPublishPlugin.validate, h1]
  · simp [GDNRenderPublishPlugin.accept, h1]
  · intro bv; simp [GDNRenderPublishPlugin.validate, h1]
  · intro item2 pp r hr hnone
    simp [GDNRenderPublishPlugin.is_acceptable, hnone] at hr

/-- Claim C9 witness: the theorem at the empty item. -/
theorem c9_no_renderpaths_witness :
    GDNRenderPublishPlugin.is_acceptable emptyItem "proj" =
      Except.error "TypeError: NoneType object is not iterable" ∧
    GDNRenderPublishPlugin.accept emptyItem "proj" =
      Except.error "TypeError: NoneType object is not iterable" ∧
    (∀ bv, GDNRenderPublishPlugin.validate bv emptyItem "proj" =
      Except.error "TypeError: NoneType object is not iterable") ∧
    GDNRenderPublishPlugin.accept emptyItem "proj" ≠
      Except.ok [("accepted", false)] ∧
    (∀ bv, GDNRenderPublishPlugin.validate bv emptyItem "proj" ≠ Except.ok false) ∧
    (∀ (item2 : ItemProps) (pp : String) (r : Nat × ItemProps),
      GDNRenderPublishPlugin.is_acceptable item2 pp = Except.ok r →
        item2.renderpaths ≠ none) :=
  c9_no_renderpaths_is_exception_not_rejection emptyItem "proj" rfl

/-- Helper for claim C5: a successful fixed-part match yields exactly the
three digit characters of the version group. -/
theorem vMatch_digits (T : Char → Bool) (cs g : List Char)
    (h : vMatch T cs = some g) : g.length = 3 ∧ g.all Char.isDigit = true := by
  unfold vMatch at h
  split at h
  · split at h
    · rename_i hcond
      obtain ⟨_, _, h1, h2, h3, _, _⟩ := hcond
      injection h with hg
      subst hg
      exact ⟨rfl, by simp [h1, h2, h3]⟩
    · cases h
  · cases h

/-- Helper for claim C5: the backtracking search only ever reports a
version group of exactly three digit characters. -/
theorem reMatchFrom_digits (T : Char → Bool) (s : List Char) :
    ∀ (i : Nat) (g : List Char), reMatchFrom T s i = some g →
      g.length = 3 ∧ g.all Char.isDigit = true := by
  intro i
  induction i with
  | zero =>
    intro g h
    unfold reMatchFrom tryMatchAt at h
    split at h
    · exact vMatch_digits T _ g h
    · cases h
  | succ i ih =>
    intro g h
    unfold reMatchFrom at h
    cases hm : tryMatchAt T s (i + 1) with
    | some g2 =>
      rw [hm] at h
      injection h with hg
      subst hg
      unfold tryMatchAt at hm
      split at hm
      · exact vMatch_digits T _ _ hm
      · cases hm
    | none =>
      rw [hm] at h
      exact ih g h

/-- Claim C5: for a file of the video item type, the collect_movies loop
collects it exactly when the scene filename yields a version token under
the scene regex and the joined movie path yields the same token under the
movie regex; moreover any scene version token consists of exactly three
decimal digits (so filenames with fewer than three digits in the version
token, or without the dot v segment, never yield a token and are never
collected); every outcome of the decision is a plain boolean, never an
exception. -/
theorem c5_movie_version_gate (item_type scene_file movies_dir filename : String)
    (h : item_type = "file.video") :
    (GDNSceneCollector.movieCollected item_type scene_file movies_dir filename = true ↔
      ∃ sv, sceneVersionOf scene_file = some sv ∧
        movieVersionOf (pyJoin2 movies_dir filename) = some sv) ∧
    (∀ sv, sceneVersionOf scene_file = some sv →
      sv.length = 3 ∧ sv.all Char.isDigit = true) := by
  subst h
  constructor
  · unfold GDNSceneCollector.movieCollected
    rw [if_neg (fun hc => hc rfl)]
    cases hsv : sceneVersionOf scene_file with
    | none => simp
    | some sv =>
      cases hmv : movieVersionOf (pyJoin2 movies_dir filename) with
      | none => simp
      | some mv =>
        simp only []
        constructor
        · intro hb
          exact ⟨sv, rfl, congrArg some (beq_iff_eq.mp hb)⟩
        · rintro ⟨sv', h1, h2⟩
          cases h1
          injection h2 with h2
          exact beq_iff_eq.mpr h2
  · intro sv hsv
    exact reMatchFrom_digits _ _ _ sv hsv

/-- Claim C5 witness: the gate theorem at a concrete video file whose
version token agrees with the scene version. -/
theorem c5_movie_version_gate_witness :
    (GDNSceneCollector.movieCollected "file.video" "shot.v001.gdn" "movies"
        "shot.v001.mov" = true ↔
      ∃ sv, sceneVersionOf "shot.v001.gdn" = some sv ∧
        movieVersionOf (pyJoin2 "movies" "shot.v001.mov") = some sv) ∧
    (∀ sv, sceneVersionOf "shot.v001.gdn" = some sv →
      sv.length = 3 ∧ sv.all Char.isDigit = true) :=
  c5_movie_version_gate "file.video" "shot.v001.gdn" "movies" "shot.v001.mov" rfl

/-- Helper: looking a key up after a shadowing update with a different key
is the same as looking it up before. -/
theorem dictGet_dictSet_ne {α : Type} (d : List (String × α)) (k k2 : String)
    (v : α) (h : k ≠ k2) : dictGet (dictSet d k v) k2 = dictGet d k2 := by
  unfold dictGet dictSet
  rw [List.find?_cons_of_neg _ (by simp [h])]

/-- Helper: looking a key up right after updating it yields the new value. -/
theorem dictGet_dictSet_self {α : Type} (d : List (String × α)) (k : String)
    (v : α) : dictGet (dictSet d k v) k = some v := by
  unfold dictGet dictSet
  rw [List.find?_cons_of_pos _ (by simp)]

/-- Helper for claim C8: a dict.update with a dictionary that does not bind
the key k leaves the lookup of k unchanged. -/
theorem dictGet_pyUpdate (k : String) :
    ∀ (std d : List (String × String)),
      (∀ kv, kv ∈ std → kv.1 ≠ k) →
      dictGet (GDNLauncher.pyUpdate d std) k = dictGet d k := by
  intro std
  induction std with
  | nil => intro d _; rfl
  | cons kv rest ih =>
    intro d h
    have hstep : GDNLauncher.pyUpdate d (kv :: rest) =
        GDNLauncher.pyUpdate (dictSet d kv.1 kv.2) rest := rfl
    rw [hstep, ih (dictSet d kv.1 kv.2) (fun kv2 hm => h kv2 (List.mem_cons_of_mem kv hm)),
      dictGet_dictSet_ne d kv.1 k kv.2 (h kv (List.mem_cons_self kv rest))]

/-- Claim C8 counterexample: an empty file_to_open argument is supplied
(it is not None) yet the returned environment does not contain the
SGTK_FILE_TO_OPEN key, because startup.py line 82 tests the argument for
Python truthiness rather than for presence. This refutes the claim that
the key is present exactly when the argument is supplied. -/
theorem c8_counterexample_empty_file_to_open :
    (some "" : Option String) ≠ none ∧
    Except.map (fun li => dictGet li.environment "SGTK_FILE_TO_OPEN")
      (GDNLauncher.prepare_launch (some "frameworkloc") "python.exe" "pythonpathval"
        [] "gdn.exe" "" (some "")) = Except.ok none :=
  ⟨by simp, rfl⟩

/-- Claim C8 (amended): whenever the framework location resolves and the
standard plugin environment does not bind the launcher's own keys, the
environment returned by prepare_launch contains SHOTGUN_GDN_PYTHON,
SHOTGUN_GDN_FRAMEWORK_LOCATION, SHOTGUN_ENGINE with value tk-gdn and
PYTHONPATH, and contains SGTK_FILE_TO_OPEN, set to the given file path,
exactly when a non-empty file_to_open argument is supplied. -/
theorem c8_environment_keys (loc sys_executable pythonpath exec_path args : String)
    (std_env : List (String × String)) (file_to_open : Option String)
    (hstd : ∀ kv, kv ∈ std_env →
      kv.1 ≠ "SHOTGUN_GDN_PYTHON" ∧ kv.1 ≠ "SHOTGUN_GDN_FRAMEWORK_LOCATION" ∧
      kv.1 ≠ "SHOTGUN_ENGINE" ∧ kv.1 ≠ "PYTHONPATH" ∧ kv.1 ≠ "SGTK_FILE_TO_OPEN") :
    ∃ env, GDNLauncher.prepare_launch (some loc) sys_executable pythonpath std_env
        exec_path args file_to_open =
        Except.ok { path := exec_path, args := args, environment := env } ∧
      dictGet env "SHOTGUN_GDN_PYTHON" = some sys_executable ∧
      dictGet env "SHOTGUN_GDN_FRAMEWORK_LOCATION" = some loc ∧
      dictGet env "SHOTGUN_ENGINE" = some "tk-gdn" ∧
      dictGet env "PYTHONPATH" = some pythonpath ∧
      dictGet env "SGTK_FILE_TO_OPEN" =
        (match file_to_open with
         | none => none
         | some f => if f = "" then none else some f) := by
  cases file_to_open with
  | none =>
    refine ⟨GDNLauncher.pyUpdate (dictSet (dictSet (dictSet (dictSet []
        "SHOTGUN_GDN_PYTHON" sys_executable) "SHOTGUN_GDN_FRAMEWORK_LOCATION" loc)
        "SHOTGUN_ENGINE" "tk-gdn") "PYTHONPATH" pythonpath) std_env,
      rfl, ?_, ?_, ?_, ?_, ?_⟩
    · rw [dictGet_pyUpdate _ std_env _ (fun kv hm => (hstd kv hm).1)]
      rfl
    · rw [dictGet_pyUpdate _ std_env _ (fun kv hm => (hstd kv hm).2.1)]
      rfl
    · rw [dictGet_pyUpdate _ std_env _ (fun kv hm => (hstd kv hm).2.2.1)]
      rfl
    · rw [dictGet_pyUpdate _ std_env _ (fun kv hm => (hstd kv hm).2.2.2.1)]
      rfl
    · rw [dictGet_pyUpdate _ std_env _ (fun kv hm => (hstd kv hm).2.2.2.2)]
      rfl
  | some f =>
    by_cases hf : f = ""
    · subst hf
      refine ⟨GDNLauncher.pyUpdate (dictSet (dictSet (dictSet (dictSet []
          "SHOTGUN_GDN_PYTHON" sys_executable) "SHOTGUN_GDN_FRAMEWORK_LOCATION" loc)
          "SHOTGUN_ENGINE" "tk-gdn") "PYTHONPATH" pythonpath) std_env,
        rfl, ?_, ?_, ?_, ?_, ?_⟩
      · rw [dictGet_pyUpdate _ std_env _ (fun kv hm => (hstd kv hm).1)]
        rfl
      · rw [dictGet_pyUpdate _ std_env _ (fun kv hm => (hstd kv hm).2.1)]
        rfl
      · rw [dictGet_pyUpdate _ std_env _ (fun kv hm => (hstd kv hm).2.2.1)]
        rfl
      · rw [dictGet_pyUpdate _ std_env _ (fun kv hm => (hstd kv hm).2.2.2.1)]
        rfl
      · rw [dictGet_pyUpdate _ std_env _ (fun kv hm => (hstd kv hm).2.2.2.2)]
        rfl
    · refine ⟨dictSet (GDNLauncher.pyUpdate (dictSet (dictSet (dictSet (dictSet []
          "SHOTGUN_GDN_PYTHON" sys_executable) "SHOTGUN_GDN_FRAMEWORK_LOCATION" loc)
          "SHOTGUN_ENGINE" "tk-gdn") "PYTHONPATH" pythonpath) std_env)
          "SGTK_FILE_TO_OPEN" f, ?_, ?_, ?_, ?_, ?_, ?_⟩
      · simp only [GDNLauncher.prepare_launch, GDNLauncher.compute_environment]
        rw [if_neg hf]
      · rw [dictGet_dictSet_ne _ _ _ _ (by decide),
          dictGet_pyUpdate _ std_env _ (fun kv hm => (hstd kv hm).1)]
        rfl
      · rw [dictGet_dictSet_ne _ _ _ _ (by decide),
          dictGet_pyUpdate _ std_env _ (fun kv hm => (hstd kv hm).2.1)]
        rfl
      · rw [dictGet_dictSet_ne _ _ _ _ (by decide),
          dictGet_pyUpdate _ std_env _ (fun kv hm => (hstd kv hm).2.2.1)]
        rfl
      · rw [dictGet_dictSet_ne _ _ _ _ (by decide),
          dictGet_pyUpdate _ std_env _ (fun kv hm => (hstd kv hm).2.2.2.1)]
        rfl
      · rw [dictGet_dictSet_self]
        show some f = if f = "" then none else some f
        rw [if_neg hf]

/-- Claim C8 witness: the amended theorem with an empty standard
environment and a non-empty file to open. -/
theorem c8_environment_keys_witness :
    ∃ env, GDNLauncher.prepare_launch (some "frameworkloc") "python.exe"
        "pythonpathval" [] "gdn.exe" "-noui" (some "shot.v001.gdn") =
        Except.ok { path := "gdn.exe", args := "-noui", environment := env } ∧
      dictGet env "SHOTGUN_GDN_PYTHON" = some "python.exe" ∧
      dictGet env "SHOTGUN_GDN_FRAMEWORK_LOCATION" = some "frameworkloc" ∧
      dictGet env "SHOTGUN_ENGINE" = some "tk-gdn" ∧
      dictGet env "PYTHONPATH" = some "pythonpathval" ∧
      dictGet env "SGTK_FILE_TO_OPEN" =
        (match some "shot.v001.gdn" with
         | none => none
         | some f => if f = "" then none else some f) :=
  c8_environment_keys "frameworkloc" "python.exe" "pythonpathval" "gdn.exe" "-noui"
    [] (some "shot.v001.gdn") (by simp)

/-- Helper for claim C10: joining a non-absolute component never shortens a
path. -/
theorem pyJoin2_length_ge (a b : String) (h : headIsSlash b = false) :
    a.length ≤ (pyJoin2 a b).length := by
  unfold pyJoin2
  split
  · rename_i hc
    rw [h] at hc
    cases hc
  · split
    · rw [String.length_append]; omega
    · rw [String.length_append, String.length_append]; omega

/-- Helper for claim C10: joining the snapshot component makes the path at
least eight characters longer. -/
theorem pyJoin2_snapshot_length (a : String) :
    a.length + 8 ≤ (pyJoin2 a "snapshot").length := by
  unfold pyJoin2
  split
  · rename_i hc
    exact absurd hc (by decide)
  · split
    · rw [String.length_append]
      have h8 : ("snapshot" : String).length = 8 := rfl
      omega
    · rw [String.length_append, String.length_append]
      have h1 : ("/" : String).length = 1 := rfl
      have h8 : ("snapshot" : String).length = 8 := rfl
      omega

/-- Claim C10: the save verb saves into the snapshot subdirectory of the
working directory under the current filename whenever that filename is
non-empty, performs no save call when the filename is empty, returns None
for the save and open verbs, and (for a filename that is not an absolute
path) the save target is never the working directory itself. -/
theorem c10_save_into_snapshot (ws : SceneOperation.WorkspaceState)
    (file_path : String) :
    (ws.current_scenefile ≠ "" →
      SceneOperation.execute ws "save" file_path = Except.ok
        { result := none
          openCalls := []
          saveAsCalls :=
            [pyJoin2 (pyJoin2 ws.working_directory "snapshot") ws.current_scenefile] }) ∧
    (ws.current_scenefile = "" →
      SceneOperation.execute ws "save" file_path = Except.ok
        { result := none, openCalls := [], saveAsCalls := [] }) ∧
    SceneOperation.execute ws "open" file_path = Except.ok
      { result := none, openCalls := [file_path], saveAsCalls := [] } ∧
    (headIsSlash ws.current_scenefile = false →
      pyJoin2 (pyJoin2 ws.working_directory "snapshot") ws.current_scenefile ≠
        ws.working_directory) := by
  refine ⟨?_, ?_, ?_, ?_⟩
  · intro h
    unfold SceneOperation.execute
    rw [if_neg (by decide), if_neg (by decide), if_pos rfl, if_pos h]
  · intro h
    unfold SceneOperation.execute
    rw [if_neg (by decide), if_neg (by decide), if_pos rfl, if_neg (by simp [h])]
  · unfold SceneOperation.execute
    rw [if_neg (by decide), if_pos rfl]
  · intro habs heq
    have h1 := pyJoin2_snapshot_length ws.working_directory
    have h2 := pyJoin2_length_ge (pyJoin2 ws.working_directory "snapshot")
      ws.current_scenefile habs
    have h3 := congrArg String.length heq
    omega

/-- Claim C10 witness: the theorem at a concrete workspace with a saved
scene filename. -/
theorem c10_save_into_snapshot_witness :
    SceneOperation.execute ⟨"", "scene.v001.gdn", "work"⟩ "save" "other" = Except.ok
      { result := none
        openCalls := []
        saveAsCalls := [pyJoin2 (pyJoin2 "work" "snapshot") "scene.v001.gdn"] } ∧
    SceneOperation.execute ⟨"", "scene.v001.gdn", "work"⟩ "open" "other" = Except.ok
      { result := none, openCalls := ["other"], saveAsCalls := [] } ∧
    pyJoin2 (pyJoin2 "work" "snapshot") "scene.v001.gdn" ≠ "work" :=
  ⟨(c10_save_into_snapshot ⟨"", "scene.v001.gdn", "work"⟩ "other").1 (by decide),
   (c10_save_into_snapshot ⟨"", "scene.v001.gdn", "work"⟩ "other").2.2.1,
   (c10_save_into_snapshot ⟨"", "scene.v001.gdn", "work"⟩ "other").2.2.2 rfl⟩
